import Mathlib

set_option maxRecDepth 100000
set_option maxHeartbeats 1000000

/-!
# Verification of the impact-decomposition tree-building engine

A shallow embedding, in Lean 4, of the analysis engine of the
financial-insights-generation platform (the source file defining
`AnalysisEngine`), together with proofs about the claims of its
specification.

Modelling conventions, chosen to mirror the JavaScript source:

* A data record (`Row`) carries the two distinguished numeric fields
  `total_loan_amount` (the weight) and `roi` (the rate), both optional
  (a JS row may lack them, or hold `null`), plus an association list
  `cats` of categorical fields.  A categorical field may be present with
  a `null` value (`some (k, none)`) or absent altogether; both read back
  as `none`, exactly as `row[k]` yields `undefined`/`null` and compares
  unequal to every string value.
* JS numbers are modelled as exact rationals (`ℚ`); `x || 0` on an
  optional numeric field is `Option.getD · 0`.
* JS objects used as string-keyed maps (filters, feature importance)
  are association lists updated by `objUpsert`, which replaces an
  existing key in place or appends a new one — the behaviour of
  `{ ...obj, [k]: v }` / `obj[k] = v`.
* `null`-returning functions become `Option`-returning ones; the
  analysis entry points, whose only failure mode is a caught exception
  re-thrown with a descriptive message, return `Except String`.
-/

/-- A tabular record: the two distinguished numeric fields of the engine
plus the categorical fields, as an association list (JS object). -/
structure Row where
  total_loan_amount : Option ℚ
  roi : Option ℚ
  cats : List (String × Option String)
deriving DecidableEq

/-- Field access `row[k]` for a categorical factor `k`: `none` models both a missing
key (`undefined`) and a key present with value `null`. -/
def Row.get (r : Row) (k : String) : Option String :=
  match r.cats.find? (fun p => decide (p.1 = k)) with
  | some p => p.2
  | none => none

/-- JS object update `obj[k] = v` (also `{ ...obj, [k]: v }`): replace the
value of an existing key in place, else append the new key. -/
def objUpsert {β : Type} (m : List (String × β)) (k : String) (v : β) :
    List (String × β) :=
  if m.any (fun p => decide (p.1 = k)) then
    m.map (fun p => if p.1 = k then (k, v) else p)
  else
    m ++ [(k, v)]

/-- Embeds `filterData(data, filter)`: keep the rows on which every
`(key, value)` entry of the filter matches by strict equality. -/
def filterData (data : List Row) (filter : List (String × String)) :
    List Row :=
  data.filter (fun row => filter.all (fun kv => decide (row.get kv.1 = some kv.2)))

/-- Embeds `getDistinctValuesForFactor(data, factor)`: the factor values of the
rows (dropping `null`/`undefined`), de-duplicated and sorted. -/
def getDistinctValuesForFactor (data : List Row) (factor : String) :
    List String :=
  let values := data.map (fun row => row.get factor)
  let filteredValues := values.filterMap id
  List.insertionSort (· ≤ ·) filteredValues.dedup

/-- Embeds `calculateWeightedROI(data)`: `Σ(amount·roi) / Σ(amount)` with missing
fields defaulted to 0; returns 0 on no data or non-positive total amount.
(The segment-grouping and logging in the source are pure diagnostics and
do not affect the returned value.) -/
def calculateWeightedROI (data : List Row) : ℚ :=
  if data.length = 0 then 0
  else
    let totalWeightedROI :=
      (data.map (fun row => row.total_loan_amount.getD 0 * row.roi.getD 0)).sum
    let totalAmount := (data.map (fun row => row.total_loan_amount.getD 0)).sum
    if totalAmount > 0 then totalWeightedROI / totalAmount else 0

/-- Embeds `getTotalAmount(data)`: `Σ amount` with missing fields defaulted to 0. -/
def getTotalAmount (data : List Row) : ℚ :=
  (data.map (fun row => row.total_loan_amount.getD 0)).sum

/-- Result record of `calculateImpactDecomposition`. -/
structure ImpactDecomp where
  yieldImpact : ℚ
  distributionImpact : ℚ
  totalImpact : ℚ
  yieldImpactBps : ℚ
  distributionImpactBps : ℚ
  totalImpactBps : ℚ
  prevDistWeight : ℚ
  currDistWeight : ℚ
deriving DecidableEq

/-- Embeds `calculateImpactDecomposition(prevData, currData, totalPrevData,
totalCurrData)`: yield / distribution / total impact of a segment against
the given totals. -/
def calculateImpactDecomposition (prevData currData totalPrevData
    totalCurrData : List Row) : ImpactDecomp :=
  let prevSegmentROI := calculateWeightedROI prevData
  let currSegmentROI := calculateWeightedROI currData
  let prevTotalAmount := getTotalAmount totalPrevData
  let currTotalAmount := getTotalAmount totalCurrData
  let prevSegmentAmount := getTotalAmount prevData
  let currSegmentAmount := getTotalAmount currData
  let prevDistWeight :=
    if prevTotalAmount > 0 then prevSegmentAmount / prevTotalAmount else 0
  let currDistWeight :=
    if currTotalAmount > 0 then currSegmentAmount / currTotalAmount else 0
  let yieldImpact := (currSegmentROI - prevSegmentROI) * prevDistWeight
  let distributionImpact := prevSegmentROI * (currDistWeight - prevDistWeight)
  let totalImpact := yieldImpact + distributionImpact
  { yieldImpact := yieldImpact
    distributionImpact := distributionImpact
    totalImpact := totalImpact
    yieldImpactBps := yieldImpact * 10000
    distributionImpactBps := distributionImpact * 10000
    totalImpactBps := totalImpact * 10000
    prevDistWeight := prevDistWeight
    currDistWeight := currDistWeight }

/-- The per-node metrics block attached to every tree node. -/
structure Metrics where
  previousROI : ℚ
  currentROI : ℚ
  roiChange : ℚ
  roiChangeBps : ℚ
  yieldImpact : ℚ
  distributionImpact : ℚ
  totalImpact : ℚ
  yieldImpactBps : ℚ
  distributionImpactBps : ℚ
  totalImpactBps : ℚ
  percentOnParent : Option ℚ
  percentOnRoot : ℚ
  previousAmount : ℚ
  currentAmount : ℚ
  previousCount : ℕ
  currentCount : ℕ
deriving DecidableEq

/-- A node of the decision tree.  `children = none` models the source's
`null` (which it returns instead of an empty child array). -/
inductive TreeNode : Type where
  | node (factor : String) (value : String)
      (filter : List (String × String)) (metrics : Metrics)
      (children : Option (List TreeNode)) : TreeNode

def TreeNode.factor : TreeNode → String
  | .node f _ _ _ _ => f

def TreeNode.value : TreeNode → String
  | .node _ v _ _ _ => v

def TreeNode.filter : TreeNode → List (String × String)
  | .node _ _ filt _ _ => filt

def TreeNode.metrics : TreeNode → Metrics
  | .node _ _ _ m _ => m

def TreeNode.children : TreeNode → Option (List TreeNode)
  | .node _ _ _ _ c => c

/-- The child ordering used by both builders: descending absolute total
impact in basis points (`sort((a, b) => |b.bps| - |a.bps|)`). -/
def impactOrder (a b : TreeNode) : Prop :=
  |b.metrics.totalImpactBps| ≤ |a.metrics.totalImpactBps|

instance : DecidableRel impactOrder := fun _ _ =>
  inferInstanceAs (Decidable (_ ≤ _))

/-- Construction of one child node, shared verbatim by the two building
modes in the source (the per-segment metrics block of
`buildUserPriorityTreeLevelV2` and `buildAutoMaxSplitTreeLevelV2`); the
recursively built grandchildren are passed in by the caller. -/
def childNodeV2 (previousData currentData : List Row) (factor value : String)
    (parentFilter : List (String × String))
    (filteredPrevious filteredCurrent : List Row)
    (rootImpact parentTotalImpact : ℚ)
    (childChildren : Option (List TreeNode)) : TreeNode :=
  let childFilter := objUpsert parentFilter factor value
  let childPrevious := filterData filteredPrevious [(factor, value)]
  let childCurrent := filterData filteredCurrent [(factor, value)]
  let impacts :=
    calculateImpactDecomposition childPrevious childCurrent previousData currentData
  let prevROI := calculateWeightedROI childPrevious
  let currentROI := calculateWeightedROI childCurrent
  let roiChange := currentROI - prevROI
  TreeNode.node factor value childFilter
    { previousROI := prevROI
      currentROI := currentROI
      roiChange := roiChange
      roiChangeBps := roiChange * 10000
      yieldImpact := impacts.yieldImpact
      distributionImpact := impacts.distributionImpact
      totalImpact := impacts.totalImpact
      yieldImpactBps := impacts.yieldImpactBps
      distributionImpactBps := impacts.distributionImpactBps
      totalImpactBps := impacts.totalImpactBps
      percentOnParent :=
        some (if parentTotalImpact ≠ 0
          then impacts.totalImpact / parentTotalImpact * 100 else 0)
      percentOnRoot :=
        if rootImpact ≠ 0 then impacts.totalImpact / rootImpact * 100 else 0
      previousAmount := getTotalAmount childPrevious
      currentAmount := getTotalAmount childCurrent
      previousCount := childPrevious.length
      currentCount := childCurrent.length }
    childChildren

/-- Construction of the root node, shared verbatim by the two building
modes: its total impact is the raw weighted-ROI change and its
distribution impact is 0. -/
def rootNodeV2 (previousData currentData : List Row)
    (children : Option (List TreeNode)) : TreeNode :=
  let rootPreviousROI := calculateWeightedROI previousData
  let rootCurrentROI := calculateWeightedROI currentData
  let rootROIChange := rootCurrentROI - rootPreviousROI
  let rootROIChangeBps := rootROIChange * 10000
  TreeNode.node "root" "Portfolio ROI" []
    { previousROI := rootPreviousROI
      currentROI := rootCurrentROI
      roiChange := rootROIChange
      roiChangeBps := rootROIChangeBps
      yieldImpact := rootROIChange
      distributionImpact := 0
      totalImpact := rootROIChange
      yieldImpactBps := rootROIChangeBps
      distributionImpactBps := 0
      totalImpactBps := rootROIChangeBps
      percentOnParent := none
      percentOnRoot := 100
      previousAmount := getTotalAmount previousData
      currentAmount := getTotalAmount currentData
      previousCount := previousData.length
      currentCount := currentData.length }
    children

/-- Embeds `buildUserPriorityTreeLevelV2`.  The source walks `factorOrder` by an
increasing `depth` index and stops at `depth >= factorOrder.length`;
here the remaining suffix `factorOrder.drop depth` is passed and walked
structurally, which is the same iteration.  `parentTotalImpact = none`
models the omitted/`null` parameter, recomputed from the parent's own
decomposition. -/
def buildUserPriorityTreeLevelV2 (previousData currentData : List Row)
    (targetVariable : String) :
    List String → List (String × String) → ℚ → Option ℚ →
    Option (List TreeNode)
  | [], _, _, _ => none
  | currentFactor :: restFactors, parentFilter, rootImpact, parentTotalImpact? =>
    let filteredPrevious := filterData previousData parentFilter
    let filteredCurrent := filterData currentData parentFilter
    let parentTotalImpact :=
      match parentTotalImpact? with
      | some v => v
      | none =>
        (calculateImpactDecomposition filteredPrevious filteredCurrent
          previousData currentData).totalImpact
    let distinctValues :=
      getDistinctValuesForFactor (filteredPrevious ++ filteredCurrent) currentFactor
    let children := distinctValues.filterMap (fun value =>
      if (filterData filteredPrevious [(currentFactor, value)]).length > 0 ∨
          (filterData filteredCurrent [(currentFactor, value)]).length > 0 then
        some (childNodeV2 previousData currentData currentFactor value
          parentFilter filteredPrevious filteredCurrent rootImpact parentTotalImpact
          (buildUserPriorityTreeLevelV2 previousData currentData targetVariable
            restFactors (objUpsert parentFilter currentFactor value) rootImpact
            (some (calculateImpactDecomposition
              (filterData filteredPrevious [(currentFactor, value)])
              (filterData filteredCurrent [(currentFactor, value)])
              previousData currentData).totalImpact)))
      else none)
    let sorted := List.insertionSort impactOrder children
    if sorted.length > 0 then some sorted else none

/-- Embeds `buildUserPriorityTreeV2`: at depth 0 build the root node and its
levels; at any other depth the source returns `null`. -/
def buildUserPriorityTreeV2 (previousData currentData : List Row)
    (factorOrder : List String) (targetVariable : String) (depth : ℕ)
    (parentFilter : List (String × String)) : Option (List TreeNode) :=
  if depth = 0 then
    let rootROIChange :=
      calculateWeightedROI currentData - calculateWeightedROI previousData
    some [rootNodeV2 previousData currentData
      (buildUserPriorityTreeLevelV2 previousData currentData targetVariable
        factorOrder [] rootROIChange none)]
  else none

/-- Result of `findBestSplitByTotalImpact`. -/
structure BestSplit where
  factor : String
  variance : ℚ
deriving DecidableEq

/-- Embeds `calculateTotalImpactVariance(previousData, currentData, factor)`:
population variance of the per-value total impacts of `factor`, where
each value's impact is decomposed against `previousData`/`currentData`
themselves as the totals. -/
def calculateTotalImpactVariance (previousData currentData : List Row)
    (factor : String) : ℚ :=
  let distinctValues :=
    getDistinctValuesForFactor (previousData ++ currentData) factor
  let impacts := distinctValues.filterMap (fun value =>
    let prevSubset :=
      previousData.filter (fun row => decide (row.get factor = some value))
    let currSubset :=
      currentData.filter (fun row => decide (row.get factor = some value))
    if prevSubset.length > 0 ∨ currSubset.length > 0 then
      some (calculateImpactDecomposition prevSubset currSubset
        previousData currentData).totalImpact
    else none)
  if impacts.length = 0 then 0
  else
    let mean := impacts.sum / impacts.length
    (impacts.map (fun impact => (impact - mean) * (impact - mean))).sum /
      impacts.length

/-- The columns never offered as split candidates. -/
def excludeColumns : List String := ["total_loan_amount", "roi", "v_score"]

/-- The auto-detection of candidate factors used by
`findBestSplitByTotalImpact` and `calculateTotalImpactFeatureImportance`
when no candidate list is supplied: the categorical keys of the first
combined row, minus `excludeColumns`, kept only when some row holds a
non-null value.  (`Object.keys` of a row also lists its numeric fields,
but those are in `excludeColumns`.) -/
def autoDetectFactors (combinedData : List Row) : Option (List String) :=
  match combinedData with
  | [] => none
  | first :: _ =>
    some ((first.cats.map Prod.fst).filter (fun factor =>
      !excludeColumns.contains factor &&
        combinedData.any (fun row => (row.get factor).isSome)))

/-- Embeds `findBestSplitByTotalImpact(previousData, currentData,
availableFactors)`: the candidate whose total-impact variance strictly
exceeds every earlier candidate's, or `none` when no variance beats the
initial best of 0. -/
def findBestSplitByTotalImpact (previousData currentData : List Row)
    (availableFactors : Option (List String)) : Option BestSplit :=
  let factors? :=
    match availableFactors with
    | some fs => some fs
    | none => autoDetectFactors (previousData ++ currentData)
  match factors? with
  | none => none
  | some factors =>
    (factors.foldl (fun acc factor =>
      let variance := calculateTotalImpactVariance previousData currentData factor
      if variance > acc.2 then (some ⟨factor, variance⟩, variance) else acc)
      ((none : Option BestSplit), (0 : ℚ))).1

/-- Embeds `buildAutoMaxSplitTreeLevelV2`, recursing on the remaining depth
budget `4 - depth` (the source counts `depth` up to the limit 4). -/
def buildAutoMaxSplitTreeLevelAux (previousData currentData : List Row)
    (targetVariable : String) (availableFactors : Option (List String)) :
    ℕ → List (String × String) → ℚ → Option ℚ → Option (List TreeNode)
  | 0, _, _, _ => none
  | remainingDepth + 1, parentFilter, rootImpact, parentTotalImpact? =>
    let filteredPrevious := filterData previousData parentFilter
    let filteredCurrent := filterData currentData parentFilter
    if filteredPrevious.length < 10 ∨ filteredCurrent.length < 10 then none
    else
      let parentTotalImpact :=
        match parentTotalImpact? with
        | some v => v
        | none =>
          (calculateImpactDecomposition filteredPrevious filteredCurrent
            previousData currentData).totalImpact
      match findBestSplitByTotalImpact filteredPrevious filteredCurrent
          availableFactors with
      | none => none
      | some bestSplit =>
        let distinctValues :=
          getDistinctValuesForFactor (filteredPrevious ++ filteredCurrent)
            bestSplit.factor
        let children := distinctValues.filterMap (fun value =>
          if (filterData filteredPrevious [(bestSplit.factor, value)]).length > 0 ∨
              (filterData filteredCurrent [(bestSplit.factor, value)]).length > 0 then
            some (childNodeV2 previousData currentData bestSplit.factor value
              parentFilter filteredPrevious filteredCurrent rootImpact
              parentTotalImpact
              (buildAutoMaxSplitTreeLevelAux previousData currentData
                targetVariable availableFactors remainingDepth
                (objUpsert parentFilter bestSplit.factor value) rootImpact
                (some (calculateImpactDecomposition
                  (filterData filteredPrevious [(bestSplit.factor, value)])
                  (filterData filteredCurrent [(bestSplit.factor, value)])
                  previousData currentData).totalImpact)))
          else none)
        let sorted := List.insertionSort impactOrder children
        if sorted.length > 0 then some sorted else none

/-- Embeds `buildAutoMaxSplitTreeLevelV2` with the source's `depth` parameter. -/
def buildAutoMaxSplitTreeLevelV2 (previousData currentData : List Row)
    (targetVariable : String) (depth : ℕ)
    (parentFilter : List (String × String))
    (availableFactors : Option (List String)) (rootImpact : ℚ)
    (parentTotalImpact : Option ℚ) : Option (List TreeNode) :=
  buildAutoMaxSplitTreeLevelAux previousData currentData targetVariable
    availableFactors (4 - depth) parentFilter rootImpact parentTotalImpact

/-- Embeds `buildAutoMaxSplitTreeV2`: at depth 0 build the root node and its
levels; at any other depth the source returns `null`. -/
def buildAutoMaxSplitTreeV2 (previousData currentData : List Row)
    (targetVariable : String) (depth : ℕ)
    (parentFilter : List (String × String))
    (availableFactors : Option (List String)) : Option (List TreeNode) :=
  if depth = 0 then
    let rootROIChange :=
      calculateWeightedROI currentData - calculateWeightedROI previousData
    some [rootNodeV2 previousData currentData
      (buildAutoMaxSplitTreeLevelV2 previousData currentData targetVariable 0 []
        availableFactors rootROIChange none)]
  else none

/-- Embeds `calculateTotalImpactFeatureImportance(previousData, currentData,
availableFactors)`: each candidate's clamped variance, written into a JS
object (duplicate candidates therefore collapse to one key while the
normalising total still counts every list entry), normalised to the
total when it is positive, else overwritten by `1 / availableFactors.length`. -/
def calculateTotalImpactFeatureImportance (previousData currentData : List Row)
    (availableFactors : Option (List String)) : List (String × ℚ) :=
  let factors? :=
    match availableFactors with
    | some fs => some fs
    | none => autoDetectFactors (previousData ++ currentData)
  match factors? with
  | none => []
  | some factors =>
    let accumulated := factors.foldl (fun acc factor =>
      let variance :=
        max 0 (calculateTotalImpactVariance previousData currentData factor)
      (objUpsert acc.1 factor variance, acc.2 + variance))
      (([] : List (String × ℚ)), (0 : ℚ))
    let importance := accumulated.1
    let totalImportance := accumulated.2
    if totalImportance > 0 then
      importance.map (fun p => (p.1, p.2 / totalImportance))
    else
      importance.map (fun p => (p.1, 1 / (factors.length : ℚ)))

/-- The analysis result shape returned by the V2 entry points.  The
`metadata` block (`countNodes`, `getTreeDepth`, `totalROIChange`) and
`impactSummary`, pure total traversals of the finished tree that no
verified claim references, are omitted from the embedded record. -/
structure AnalysisResult where
  analysisType : String
  version : String
  targetVariable : String
  tree : Option (List TreeNode)
  featureImportance : List (String × ℚ)

/-- Embeds `performUserPriorityAnalysisV2`.  A missing (`undefined`) record
collection makes `getTotalAmount` throw (`data.reduce` on `undefined`)
inside the `try` block, re-thrown as the descriptive analysis error;
with both collections present every operation is total, so the call
succeeds even on empty collections. -/
def performUserPriorityAnalysisV2 (previousMonth currentMonth : Option (List Row))
    (factorOrder : List String) (targetVariable : String) :
    Except String AnalysisResult :=
  match previousMonth, currentMonth with
  | some prev, some curr =>
    Except.ok
      { analysisType := "user-priority"
        version := "v2"
        targetVariable := targetVariable
        tree := buildUserPriorityTreeV2 prev curr factorOrder targetVariable 0 []
        featureImportance := [] }
  | _, _ =>
    Except.error
      "V2 User-Priority analysis failed: Cannot read properties of undefined"

/-- Embeds `performAutoMaxSplitAnalysisV2`; failure semantics as for
`performUserPriorityAnalysisV2`. -/
def performAutoMaxSplitAnalysisV2 (previousMonth currentMonth : Option (List Row))
    (targetVariable : String) (availableFactors : Option (List String)) :
    Except String AnalysisResult :=
  match previousMonth, currentMonth with
  | some prev, some curr =>
    Except.ok
      { analysisType := "auto-max-split"
        version := "v2"
        targetVariable := targetVariable
        tree := buildAutoMaxSplitTreeV2 prev curr targetVariable 0 [] availableFactors
        featureImportance :=
          calculateTotalImpactFeatureImportance prev curr availableFactors }
  | _, _ =>
    Except.error
      "V2 Auto-Max Split analysis failed: Cannot read properties of undefined"

/-- Modelled from the spec (§4.1 contract, as the claim states it):
`Σ(weight·rate) / Σ(weight)`, "0 if total weight is 0 or subset is
empty".  For comparison against `calculateWeightedROI`. -/
def weightedRate_claimSpec (data : List Row) : ℚ :=
  let totalAmount := (data.map (fun row => row.total_loan_amount.getD 0)).sum
  if data.length = 0 ∨ totalAmount = 0 then 0
  else
    (data.map (fun row => row.total_loan_amount.getD 0 * row.roi.getD 0)).sum /
      totalAmount

/-- Modelled from the spec (§4.2, as claim C1 states it): a distribution
weight is "the segment's total weight divided by the corresponding
portfolio total weight and is 0 when that portfolio total weight is 0".
For comparison against the weights of `calculateImpactDecomposition`. -/
def distWeight_claimSpec (segment total : List Row) : ℚ :=
  if getTotalAmount total = 0 then 0
  else getTotalAmount segment / getTotalAmount total

/-- Modelled from the spec (§4.3): the per-value total-impact variance a
factor would have if each value's impact were decomposed against the
*global* previous/current record sets as the distribution-share
denominators, rather than against the node's own filtered subsets.
For comparison against `calculateTotalImpactVariance`. -/
def calculateTotalImpactVarianceGlobalSpec
    (previousData currentData globalPrevious globalCurrent : List Row)
    (factor : String) : ℚ :=
  let distinctValues :=
    getDistinctValuesForFactor (previousData ++ currentData) factor
  let impacts := distinctValues.filterMap (fun value =>
    let prevSubset :=
      previousData.filter (fun row => decide (row.get factor = some value))
    let currSubset :=
      currentData.filter (fun row => decide (row.get factor = some value))
    if prevSubset.length > 0 ∨ currSubset.length > 0 then
      some (calculateImpactDecomposition prevSubset currSubset
        globalPrevious globalCurrent).totalImpact
    else none)
  if impacts.length = 0 then 0
  else
    let mean := impacts.sum / impacts.length
    (impacts.map (fun impact => (impact - mean) * (impact - mean))).sum /
      impacts.length

/-- Modelled from the spec (§4.3): the Factor Selector that claim C5
describes, identical to `findBestSplitByTotalImpact` except that each
candidate's variance uses the global record sets as decomposition
totals. -/
def findBestSplitByTotalImpactGlobalSpec
    (previousData currentData globalPrevious globalCurrent : List Row)
    (availableFactors : Option (List String)) : Option BestSplit :=
  let factors? :=
    match availableFactors with
    | some fs => some fs
    | none => autoDetectFactors (previousData ++ currentData)
  match factors? with
  | none => none
  | some factors =>
    (factors.foldl (fun acc factor =>
      let variance := calculateTotalImpactVarianceGlobalSpec previousData
        currentData globalPrevious globalCurrent factor
      if variance > acc.2 then (some ⟨factor, variance⟩, variance) else acc)
      ((none : Option BestSplit), (0 : ℚ))).1

/-- Modelled from the spec: the auto-split level builder exactly as
`buildAutoMaxSplitTreeLevelAux`, but selecting factors per claim C5 with
the global record sets as the selector's decomposition totals.  All
other behaviour (depth budget, minimum samples, child metrics — which
already use the global sets — and ordering) is unchanged. -/
def buildAutoLevelGlobalSpecAux (previousData currentData : List Row)
    (targetVariable : String) (availableFactors : Option (List String)) :
    ℕ → List (String × String) → ℚ → Option ℚ → Option (List TreeNode)
  | 0, _, _, _ => none
  | remainingDepth + 1, parentFilter, rootImpact, parentTotalImpact? =>
    let filteredPrevious := filterData previousData parentFilter
    let filteredCurrent := filterData currentData parentFilter
    if filteredPrevious.length < 10 ∨ filteredCurrent.length < 10 then none
    else
      let parentTotalImpact :=
        match parentTotalImpact? with
        | some v => v
        | none =>
          (calculateImpactDecomposition filteredPrevious filteredCurrent
            previousData currentData).totalImpact
      match findBestSplitByTotalImpactGlobalSpec filteredPrevious
          filteredCurrent previousData currentData availableFactors with
      | none => none
      | some bestSplit =>
        let distinctValues :=
          getDistinctValuesForFactor (filteredPrevious ++ filteredCurrent)
            bestSplit.factor
        let children := distinctValues.filterMap (fun value =>
          if (filterData filteredPrevious [(bestSplit.factor, value)]).length > 0 ∨
              (filterData filteredCurrent [(bestSplit.factor, value)]).length > 0 then
            some (childNodeV2 previousData currentData bestSplit.factor value
              parentFilter filteredPrevious filteredCurrent rootImpact
              parentTotalImpact
              (buildAutoLevelGlobalSpecAux previousData currentData
                targetVariable availableFactors remainingDepth
                (objUpsert parentFilter bestSplit.factor value) rootImpact
                (some (calculateImpactDecomposition
                  (filterData filteredPrevious [(bestSplit.factor, value)])
                  (filterData filteredCurrent [(bestSplit.factor, value)])
                  previousData currentData).totalImpact)))
          else none)
        let sorted := List.insertionSort impactOrder children
        if sorted.length > 0 then some sorted else none

/-- Modelled from the spec: `buildAutoMaxSplitTreeV2` with the selector
of claim C5 (global decomposition totals at every node). -/
def buildAutoMaxSplitTreeV2GlobalSpec (previousData currentData : List Row)
    (targetVariable : String) (depth : ℕ)
    (parentFilter : List (String × String))
    (availableFactors : Option (List String)) : Option (List TreeNode) :=
  if depth = 0 then
    let rootROIChange :=
      calculateWeightedROI currentData - calculateWeightedROI previousData
    some [rootNodeV2 previousData currentData
      (buildAutoLevelGlobalSpecAux previousData currentData targetVariable
        availableFactors 4 [] rootROIChange none)]
  else none

/-- Whether, in an optional singleton-root tree, the root's child carrying
the given value is a leaf (no children).  Used to compare concrete trees. -/
def childWithValueIsLeaf (tree : Option (List TreeNode)) (v : String) : Bool :=
  match tree with
  | some [root] =>
    match root.children with
    | some cs =>
      match cs.find? (fun c => decide (c.value = v)) with
      | some c => c.children.isNone
      | none => false
    | none => false
  | _ => false

/-- The root children's previous-record counts, summed, next to the root's
own previous-record count, for an optional singleton-root tree. -/
def rootChildrenPrevCounts (tree : Option (List TreeNode)) :
    Option (ℕ × ℕ) :=
  match tree with
  | some [root] =>
    match root.children with
    | some cs =>
      some ((cs.map (fun c => c.metrics.previousCount)).sum,
        root.metrics.previousCount)
    | none => none
  | _ => none

/-! ### Concrete data sets used by the witnesses and counterexamples -/

/-- A row with a negative weight (the engine never validates signs). -/
def rowNegAmt : Row := ⟨some (-1), some 1, []⟩

/-- A row with unit weight and rate. -/
def rowUnit : Row := ⟨some 1, some 1, []⟩

/-- Small two-row data sets whose factor `g` has nonzero total-impact
variance (`u`-rows keep rate 0, `v`-rows keep rate 1/10, while the
`u` weight grows). -/
def rowSu : Row := ⟨some 1, some 0, [("g", some "u")]⟩

def rowSv : Row := ⟨some 1, some (1/10), [("g", some "v")]⟩

def rowSuCurr : Row := ⟨some 2, some 0, [("g", some "u")]⟩

def prevS : List Row := [rowSu, rowSv]

def currS : List Row := [rowSuCurr, rowSv]

/-- Rows for the auto-split selector divergence example: factor `f`
splits an `X` block (identical in both periods: five rows of weight 2 at
rate 1/10 with `g = u`, five at rate 1/5 with `g = v`) from a `Y` block
whose weight falls from 80 to 30. -/
def rowXu : Row := ⟨some 2, some (1/10), [("f", some "X"), ("g", some "u")]⟩

def rowXv : Row := ⟨some 2, some (1/5), [("f", some "X"), ("g", some "v")]⟩

def rowYprev : Row := ⟨some 80, some 0, [("f", some "Y")]⟩

def rowYcurr : Row := ⟨some 30, some 0, [("f", some "Y")]⟩

/-- The ten identical-in-both-periods `f = X` rows. -/
def blockX : List Row := List.replicate 5 rowXu ++ List.replicate 5 rowXv

def prevEx5 : List Row := blockX ++ [rowYprev]

def currEx5 : List Row := blockX ++ [rowYcurr]

/-- Rows for the partition-gap example: one row carries `tier = A`, the
other has no `tier` value at all. -/
def rowTierA : Row := ⟨some 1, some (1/10), [("tier", some "A")]⟩

def rowNoTier : Row := ⟨some 1, some (1/10), []⟩

def dataC10 : List Row := [rowTierA, rowNoTier]

/-! ### Tree predicates used by the claim theorems -/

/-- Predicate `HeightLE n t`: the tree `t` has height at most `n` (a chain of
nested children starting at `t` visits at most `n` nodes), so a tree
with `HeightLE 5` has no node more than 4 splitting levels below its
root. -/
inductive HeightLE : ℕ → TreeNode → Prop where
  | leaf (n : ℕ) (f v : String) (filt : List (String × String)) (m : Metrics) :
      HeightLE (n + 1) (.node f v filt m none)
  | branch (n : ℕ) (f v : String) (filt : List (String × String)) (m : Metrics)
      (cs : List TreeNode) :
      (∀ c ∈ cs, HeightLE n c) →
      HeightLE (n + 1) (.node f v filt m (some cs))

/-- Predicate `SplitGuarded prev curr t`: every node of `t` that has children has
at least 10 records of each period in its filter-restricted subsets
(below either threshold a node is a leaf). -/
inductive SplitGuarded (previousData currentData : List Row) :
    TreeNode → Prop where
  | leaf (f v : String) (filt : List (String × String)) (m : Metrics) :
      SplitGuarded previousData currentData (.node f v filt m none)
  | branch (f v : String) (filt : List (String × String)) (m : Metrics)
      (cs : List TreeNode) :
      10 ≤ (filterData previousData filt).length →
      10 ≤ (filterData currentData filt).length →
      (∀ c ∈ cs, SplitGuarded previousData currentData c) →
      SplitGuarded previousData currentData (.node f v filt m (some cs))

/-- Predicate `ChildrenComplete prev curr t`: at every split of `t`, the children's
values are, without repetition, exactly the distinct values of the
splitting factor present in the node's filter-restricted data of either
period, and every child has at least one matching record in some
period. -/
inductive ChildrenComplete (previousData currentData : List Row) :
    TreeNode → Prop where
  | leaf (f v : String) (filt : List (String × String)) (m : Metrics) :
      ChildrenComplete previousData currentData (.node f v filt m none)
  | branch (f v : String) (filt : List (String × String)) (m : Metrics)
      (cs : List TreeNode) (splitFactor : String) :
      List.Perm (cs.map TreeNode.value)
        (getDistinctValuesForFactor
          (filterData previousData filt ++ filterData currentData filt)
          splitFactor) →
      (∀ c ∈ cs, c.factor = splitFactor ∧
        ((filterData (filterData previousData filt)
            [(splitFactor, c.value)]).length > 0 ∨
          (filterData (filterData currentData filt)
            [(splitFactor, c.value)]).length > 0)) →
      (∀ c ∈ cs, ChildrenComplete previousData currentData c) →
      ChildrenComplete previousData currentData (.node f v filt m (some cs))

/-- Predicate `SelectorUsesLocalData prev curr af t`: at every split of `t`, the
factor is the one `findBestSplitByTotalImpact` picks on the node's own
filter-restricted subsets (which that function also uses as the
decomposition totals of its variances), while each child's stored
`totalImpact` is decomposed against the full portfolio. -/
inductive SelectorUsesLocalData (previousData currentData : List Row)
    (availableFactors : Option (List String)) : TreeNode → Prop where
  | leaf (f v : String) (filt : List (String × String)) (m : Metrics) :
      SelectorUsesLocalData previousData currentData availableFactors
        (.node f v filt m none)
  | branch (f v : String) (filt : List (String × String)) (m : Metrics)
      (cs : List TreeNode) (best : BestSplit) :
      findBestSplitByTotalImpact (filterData previousData filt)
        (filterData currentData filt) availableFactors = some best →
      (∀ c ∈ cs, c.factor = best.factor ∧
        c.metrics.totalImpact = (calculateImpactDecomposition
          (filterData (filterData previousData filt) [(best.factor, c.value)])
          (filterData (filterData currentData filt) [(best.factor, c.value)])
          previousData currentData).totalImpact) →
      (∀ c ∈ cs, SelectorUsesLocalData previousData currentData
        availableFactors c) →
      SelectorUsesLocalData previousData currentData availableFactors
        (.node f v filt m (some cs))

/-! ## General lemmas -/

theorem mem_filterData {r : Row} {data : List Row}
    {filt : List (String × String)} :
    r ∈ filterData data filt ↔
      r ∈ data ∧ ∀ kv ∈ filt, r.get kv.1 = some kv.2 := by
  simp [filterData, List.mem_filter, List.all_eq_true]

theorem filterData_nil (data : List Row) : filterData data [] = data := by
  simp [filterData]

theorem mem_getDistinctValuesForFactor {v : String} {data : List Row}
    {factor : String} :
    v ∈ getDistinctValuesForFactor data factor ↔
      ∃ r ∈ data, r.get factor = some v := by
  simp only [getDistinctValuesForFactor]
  rw [(List.perm_insertionSort _ _).mem_iff, List.mem_dedup]
  simp

theorem nodup_getDistinctValuesForFactor (data : List Row) (factor : String) :
    (getDistinctValuesForFactor data factor).Nodup := by
  simp only [getDistinctValuesForFactor]
  exact (List.perm_insertionSort _ _).nodup_iff.mpr (List.nodup_dedup _)

theorem filterMap_eq_map_of_some {α β : Type} (l : List α) (f : α → Option β)
    (g : α → β) (h : ∀ a ∈ l, f a = some (g a)) : l.filterMap f = l.map g := by
  induction l with
  | nil => rfl
  | cons x xs ih =>
    rw [List.filterMap_cons, h x (by simp), List.map_cons,
      ih (fun a ha => h a (by simp [ha]))]

theorem child_subsets_nonempty {value : String} {fp fc : List Row}
    {factor : String}
    (h : value ∈ getDistinctValuesForFactor (fp ++ fc) factor) :
    (filterData fp [(factor, value)]).length > 0 ∨
      (filterData fc [(factor, value)]).length > 0 := by
  rw [mem_getDistinctValuesForFactor] at h
  obtain ⟨r, hr, hget⟩ := h
  rcases List.mem_append.mp hr with h1 | h2
  · exact Or.inl (List.length_pos.mpr (List.ne_nil_of_mem
      (mem_filterData.mpr ⟨h1, by simpa⟩)))
  · exact Or.inr (List.length_pos.mpr (List.ne_nil_of_mem
      (mem_filterData.mpr ⟨h2, by simpa⟩)))

theorem childNodeV2_factor (p c : List Row) (f v : String)
    (pf : List (String × String)) (fp fc : List Row) (ri pti : ℚ)
    (ch : Option (List TreeNode)) :
    (childNodeV2 p c f v pf fp fc ri pti ch).factor = f := rfl

theorem childNodeV2_value (p c : List Row) (f v : String)
    (pf : List (String × String)) (fp fc : List Row) (ri pti : ℚ)
    (ch : Option (List TreeNode)) :
    (childNodeV2 p c f v pf fp fc ri pti ch).value = v := rfl

theorem childNodeV2_filter (p c : List Row) (f v : String)
    (pf : List (String × String)) (fp fc : List Row) (ri pti : ℚ)
    (ch : Option (List TreeNode)) :
    (childNodeV2 p c f v pf fp fc ri pti ch).filter = objUpsert pf f v := rfl

theorem childNodeV2_children (p c : List Row) (f v : String)
    (pf : List (String × String)) (fp fc : List Row) (ri pti : ℚ)
    (ch : Option (List TreeNode)) :
    (childNodeV2 p c f v pf fp fc ri pti ch).children = ch := rfl

theorem childNodeV2_totalImpact (p c : List Row) (f v : String)
    (pf : List (String × String)) (fp fc : List Row) (ri pti : ℚ)
    (ch : Option (List TreeNode)) :
    (childNodeV2 p c f v pf fp fc ri pti ch).metrics.totalImpact =
      (calculateImpactDecomposition (filterData fp [(f, v)])
        (filterData fc [(f, v)]) p c).totalImpact := rfl

/-! ## Claim C3: the root invariant -/

/-- Claim C3 (confirmed): in both modes, the root node of the built tree has
`distributionImpact = 0`, `totalImpact` equal to the portfolio's current
weighted rate minus its previous weighted rate, and `totalImpactBps`
10000 times that delta. -/
theorem claim_C3_root_invariant (previousData currentData : List Row)
    (factorOrder : List String) (targetVariable : String)
    (availableFactors : Option (List String)) :
    (∃ root, buildUserPriorityTreeV2 previousData currentData factorOrder
        targetVariable 0 [] = some [root] ∧
      root.metrics.distributionImpact = 0 ∧
      root.metrics.totalImpact =
        calculateWeightedROI currentData - calculateWeightedROI previousData ∧
      root.metrics.totalImpactBps =
        (calculateWeightedROI currentData - calculateWeightedROI previousData) *
          10000) ∧
    (∃ root, buildAutoMaxSplitTreeV2 previousData currentData targetVariable
        0 [] availableFactors = some [root] ∧
      root.metrics.distributionImpact = 0 ∧
      root.metrics.totalImpact =
        calculateWeightedROI currentData - calculateWeightedROI previousData ∧
      root.metrics.totalImpactBps =
        (calculateWeightedROI currentData - calculateWeightedROI previousData) *
          10000) :=
  ⟨⟨_, rfl, rfl, rfl, rfl⟩, ⟨_, rfl, rfl, rfl, rfl⟩⟩

/-! ## Claim C1: the impact decomposition formulas -/

/-- Claim C1 (amended): `calculateImpactDecomposition` computes the claimed
formulas, where a distribution weight is the segment's total weight over
the portfolio's total weight when the latter is strictly positive and 0
otherwise (the source guards with `> 0`, not `≠ 0`); the identity
`totalImpact = yieldImpact + distributionImpact` holds exactly for every
input, as does `totalImpactBps = totalImpact * 10000`. -/
theorem claim_C1_impact_decomposition
    (prevData currData totalPrevData totalCurrData : List Row) :
    (calculateImpactDecomposition prevData currData totalPrevData
        totalCurrData).yieldImpact =
      (calculateWeightedROI currData - calculateWeightedROI prevData) *
        (if 0 < getTotalAmount totalPrevData then
          getTotalAmount prevData / getTotalAmount totalPrevData else 0) ∧
    (calculateImpactDecomposition prevData currData totalPrevData
        totalCurrData).distributionImpact =
      calculateWeightedROI prevData *
        ((if 0 < getTotalAmount totalCurrData then
            getTotalAmount currData / getTotalAmount totalCurrData else 0) -
          (if 0 < getTotalAmount totalPrevData then
            getTotalAmount prevData / getTotalAmount totalPrevData else 0)) ∧
    (calculateImpactDecomposition prevData currData totalPrevData
        totalCurrData).totalImpact =
      (calculateImpactDecomposition prevData currData totalPrevData
          totalCurrData).yieldImpact +
        (calculateImpactDecomposition prevData currData totalPrevData
          totalCurrData).distributionImpact ∧
    (calculateImpactDecomposition prevData currData totalPrevData
        totalCurrData).totalImpactBps =
      (calculateImpactDecomposition prevData currData totalPrevData
          totalCurrData).totalImpact * 10000 :=
  ⟨rfl, rfl, rfl, rfl⟩

/-- Claim C1 counterexample: on a portfolio whose total weight is negative
(weights are never sign-checked), the claimed formula "segment total
weight divided by portfolio total weight, 0 only when the portfolio
total weight is 0" disagrees with the code, whose guard is `> 0`: the
code's yield impact is 0 while the claimed formula gives 1. -/
theorem claim_C1_counterexample :
    (calculateImpactDecomposition [rowNegAmt] [rowUnit] [rowNegAmt]
        [rowUnit]).yieldImpact ≠
      (calculateWeightedROI [rowUnit] - calculateWeightedROI [rowNegAmt]) *
        distWeight_claimSpec [rowNegAmt] [rowNegAmt] := by
  with_unfolding_all decide

/-! ## Claim C2: the weighted aggregator -/

/-- Claim C2 (amended): `calculateWeightedROI` is `Σ(weight·rate)/Σ(weight)`
over all records, a missing weight or rate defaulting to 0, and returns 0
when the list is empty or the total weight is *not strictly positive*
(the source guards with `> 0`); `getTotalAmount` is `Σ weight`. -/
theorem claim_C2_weighted_aggregator (data : List Row) :
    (calculateWeightedROI data =
      if 0 < getTotalAmount data then
        (data.map (fun row =>
          row.total_loan_amount.getD 0 * row.roi.getD 0)).sum /
          getTotalAmount data
      else 0) ∧
    getTotalAmount data =
      (data.map (fun row => row.total_loan_amount.getD 0)).sum := by
  refine ⟨?_, rfl⟩
  unfold calculateWeightedROI
  rcases data with _ | ⟨r, rs⟩
  · simp [getTotalAmount]
  · rw [if_neg (by simp)]
    rfl

/-- Claim C2 counterexample: on a single record of weight −1 and rate 1 the
code returns 0 (its guard is `total > 0`), while the claimed contract
"`Σ(weight·rate)/Σ(weight)`, 0 if total weight is 0 or subset is empty"
yields 1. -/
theorem claim_C2_counterexample :
    calculateWeightedROI [rowNegAmt] ≠ weightedRate_claimSpec [rowNegAmt] := by
  with_unfolding_all decide

/-! ## Claim C8: failure semantics of the analysis entry points -/

/-- Claim C8 (amended): both analysis entry points raise the descriptive
analysis error when a record collection is missing, and succeed (without
raising) whenever both collections are present — including when they are
empty, which merely produces a childless root. -/
theorem claim_C8_failure_semantics :
    (∀ (previousMonth currentMonth : List Row) (factorOrder : List String)
      (targetVariable : String),
      (performUserPriorityAnalysisV2 (some previousMonth) (some currentMonth)
        factorOrder targetVariable).isOk = true) ∧
    (∀ (previousMonth currentMonth : List Row) (targetVariable : String)
      (availableFactors : Option (List String)),
      (performAutoMaxSplitAnalysisV2 (some previousMonth) (some currentMonth)
        targetVariable availableFactors).isOk = true) ∧
    (∀ (currentMonth : Option (List Row)) (factorOrder : List String)
      (targetVariable : String),
      performUserPriorityAnalysisV2 none currentMonth factorOrder
        targetVariable = Except.error
          "V2 User-Priority analysis failed: Cannot read properties of undefined") ∧
    (∀ (previousMonth : Option (List Row)) (factorOrder : List String)
      (targetVariable : String),
      performUserPriorityAnalysisV2 previousMonth none factorOrder
        targetVariable = Except.error
          "V2 User-Priority analysis failed: Cannot read properties of undefined") ∧
    (∀ (currentMonth : Option (List Row)) (targetVariable : String)
      (availableFactors : Option (List String)),
      performAutoMaxSplitAnalysisV2 none currentMonth targetVariable
        availableFactors = Except.error
          "V2 Auto-Max Split analysis failed: Cannot read properties of undefined") ∧
    (∀ (previousMonth : Option (List Row)) (targetVariable : String)
      (availableFactors : Option (List String)),
      performAutoMaxSplitAnalysisV2 previousMonth none targetVariable
        availableFactors = Except.error
          "V2 Auto-Max Split analysis failed: Cannot read properties of undefined") := by
  refine ⟨fun _ _ _ _ => rfl, fun _ _ _ _ => rfl, fun c _ _ => ?_,
    fun p _ _ => ?_, fun c _ _ => ?_, fun p _ _ => ?_⟩
  · cases c <;> rfl
  · cases p <;> rfl
  · cases c <;> rfl
  · cases p <;> rfl

/-- Claim C8 counterexample: invoking either analysis with *empty* (but
present) record collections does not raise — it succeeds — contradicting
the claim that empty collections produce a descriptive error. -/
theorem claim_C8_counterexample :
    (performUserPriorityAnalysisV2 (some []) (some []) ["tier"] "roi").isOk =
      true ∧
    (performAutoMaxSplitAnalysisV2 (some []) (some []) "roi" none).isOk =
      true :=
  ⟨rfl, rfl⟩

/-! ## Claim C4: the best-split selector -/

theorem calculateTotalImpactVariance_nonneg (previousData currentData : List Row)
    (factor : String) :
    0 ≤ calculateTotalImpactVariance previousData currentData factor := by
  simp only [calculateTotalImpactVariance]
  split
  · exact le_refl 0
  · refine div_nonneg (List.sum_nonneg ?_) (Nat.cast_nonneg _)
    intro x hx
    simp only [List.mem_map] at hx
    obtain ⟨y, -, rfl⟩ := hx
    exact mul_self_nonneg _

theorem bestSplit_foldl_no_improve (previousData currentData : List Row)
    (l : List String) (b0 : Option BestSplit) (v0 : ℚ)
    (h : ∀ x ∈ l, calculateTotalImpactVariance previousData currentData x ≤ v0) :
    l.foldl (fun acc factor =>
      let variance := calculateTotalImpactVariance previousData currentData factor
      if variance > acc.2 then (some ⟨factor, variance⟩, variance) else acc)
      (b0, v0) = (b0, v0) := by
  induction l with
  | nil => rfl
  | cons x xs ih =>
    rw [List.foldl_cons]
    simp only [gt_iff_lt]
    split_ifs with hc
    · exact absurd hc (not_lt.mpr (h x (by simp)))
    · exact ih (fun a ha => h a (by simp [ha]))

theorem bestSplit_foldl_improve (previousData currentData : List Row)
    (l : List String) (b0 : Option BestSplit) (v0 : ℚ)
    (h : ∃ x ∈ l, v0 < calculateTotalImpactVariance previousData currentData x) :
    ∃ i : Fin l.length,
      l.foldl (fun acc factor =>
        let variance := calculateTotalImpactVariance previousData currentData factor
        if variance > acc.2 then (some ⟨factor, variance⟩, variance) else acc)
        (b0, v0) =
        (some ⟨l.get i,
          calculateTotalImpactVariance previousData currentData (l.get i)⟩,
          calculateTotalImpactVariance previousData currentData (l.get i)) ∧
      v0 < calculateTotalImpactVariance previousData currentData (l.get i) ∧
      (∀ j : Fin l.length,
        calculateTotalImpactVariance previousData currentData (l.get j) ≤
          calculateTotalImpactVariance previousData currentData (l.get i)) ∧
      (∀ j : Fin l.length, (j : ℕ) < (i : ℕ) →
        calculateTotalImpactVariance previousData currentData (l.get j) <
          calculateTotalImpactVariance previousData currentData (l.get i)) := by
  induction l generalizing b0 v0 with
  | nil => simp at h
  | cons x xs ih =>
    rw [List.foldl_cons]
    simp only [gt_iff_lt]
    split_ifs with hx
    · by_cases hrest : ∃ y ∈ xs,
          calculateTotalImpactVariance previousData currentData x <
            calculateTotalImpactVariance previousData currentData y
      · obtain ⟨i, hfold, hlt, hmax, hfirst⟩ := ih _ _ hrest
        refine ⟨i.succ, ?_, lt_trans hx hlt, ?_, ?_⟩
        · simpa using hfold
        · intro j
          rcases j with ⟨_ | j, hj⟩
          · simpa using le_of_lt hlt
          · simpa using hmax ⟨j, by simpa using hj⟩
        · intro j hj
          rcases j with ⟨_ | j, hj2⟩
          · simpa using hlt
          · have := hfirst ⟨j, by simpa using hj2⟩ (by simpa using hj)
            simpa using this
      · push_neg at hrest
        rw [bestSplit_foldl_no_improve previousData currentData xs _ _ hrest]
        refine ⟨⟨0, by simp⟩, rfl, hx, ?_, ?_⟩
        · intro j
          rcases j with ⟨_ | j, hj⟩
          · simp
          · simpa using hrest _ (List.get_mem xs j (by simpa using hj))
        · intro j hj
          simp at hj
    · have hx2 : calculateTotalImpactVariance previousData currentData x ≤ v0 :=
        not_lt.mp hx
      have hrest : ∃ y ∈ xs,
          v0 < calculateTotalImpactVariance previousData currentData y := by
        obtain ⟨y, hy, hvy⟩ := h
        rcases List.mem_cons.mp hy with rfl | hy2
        · exact absurd hvy (not_lt.mpr hx2)
        · exact ⟨y, hy2, hvy⟩
      obtain ⟨i, hfold, hlt, hmax, hfirst⟩ := ih _ _ hrest
      refine ⟨i.succ, ?_, hlt, ?_, ?_⟩
      · simpa using hfold
      · intro j
        rcases j with ⟨_ | j, hj⟩
        · simpa using le_of_lt (lt_of_le_of_lt hx2 hlt)
        · simpa using hmax ⟨j, by simpa using hj⟩
      · intro j hj
        rcases j with ⟨_ | j, hj2⟩
        · simpa using lt_of_le_of_lt hx2 hlt
        · have := hfirst ⟨j, by simpa using hj2⟩ (by simpa using hj)
          simpa using this

/-- Claim C4 (confirmed): with an explicit candidate list,
`findBestSplitByTotalImpact` returns `none` when every candidate's
per-value total-impact variance is zero (in particular when there are no
candidates), and otherwise returns the candidate of strictly greatest
variance, earlier candidates winning ties: the returned index holds a
maximal variance and strictly exceeds every earlier candidate's. -/
theorem claim_C4_best_split (previousData currentData : List Row)
    (factors : List String) :
    ((∀ f ∈ factors,
        calculateTotalImpactVariance previousData currentData f = 0) →
      findBestSplitByTotalImpact previousData currentData (some factors) =
        none) ∧
    ((∃ f ∈ factors,
        calculateTotalImpactVariance previousData currentData f ≠ 0) →
      ∃ i : Fin factors.length,
        findBestSplitByTotalImpact previousData currentData (some factors) =
          some ⟨factors.get i,
            calculateTotalImpactVariance previousData currentData
              (factors.get i)⟩ ∧
        (∀ j : Fin factors.length,
          calculateTotalImpactVariance previousData currentData
            (factors.get j) ≤
            calculateTotalImpactVariance previousData currentData
              (factors.get i)) ∧
        (∀ j : Fin factors.length, (j : ℕ) < (i : ℕ) →
          calculateTotalImpactVariance previousData currentData
            (factors.get j) <
            calculateTotalImpactVariance previousData currentData
              (factors.get i))) := by
  constructor
  · intro h
    simp only [findBestSplitByTotalImpact]
    rw [bestSplit_foldl_no_improve previousData currentData factors none 0
      (fun x hx => le_of_eq (h x hx))]
  · intro h
    obtain ⟨f, hf, hne⟩ := h
    have hpos : (0 : ℚ) < calculateTotalImpactVariance previousData currentData f :=
      lt_of_le_of_ne (calculateTotalImpactVariance_nonneg _ _ _) (Ne.symm hne)
    obtain ⟨i, hfold, -, hmax, hfirst⟩ :=
      bestSplit_foldl_improve previousData currentData factors none 0
        ⟨f, hf, hpos⟩
    refine ⟨i, ?_, hmax, hfirst⟩
    simp only [findBestSplitByTotalImpact]
    rw [hfold]

/-- Witness for C4: on the two-row data sets the empty candidate list
yields `none`, and with the single nonzero-variance candidate `g` the
selector returns it with the characterised maximality properties. -/
theorem claim_C4_best_split_witness :
    findBestSplitByTotalImpact prevS currS (some []) = none ∧
    ∃ i : Fin (["g"] : List String).length,
      findBestSplitByTotalImpact prevS currS (some ["g"]) =
        some ⟨(["g"] : List String).get i,
          calculateTotalImpactVariance prevS currS
            ((["g"] : List String).get i)⟩ ∧
      (∀ j : Fin (["g"] : List String).length,
        calculateTotalImpactVariance prevS currS ((["g"] : List String).get j) ≤
          calculateTotalImpactVariance prevS currS
            ((["g"] : List String).get i)) ∧
      (∀ j : Fin (["g"] : List String).length, (j : ℕ) < (i : ℕ) →
        calculateTotalImpactVariance prevS currS ((["g"] : List String).get j) <
          calculateTotalImpactVariance prevS currS
            ((["g"] : List String).get i)) :=
  ⟨(claim_C4_best_split prevS currS []).1 (by simp),
    (claim_C4_best_split prevS currS ["g"]).2
      ⟨"g", by simp, by with_unfolding_all decide⟩⟩

/-! ## Inversion of the auto-split level builder -/

theorem buildAutoAux_some_inv (previousData currentData : List Row)
    (targetVariable : String) (availableFactors : Option (List String))
    (n : ℕ) (pf : List (String × String)) (ri : ℚ) (pti : Option ℚ)
    (cs : List TreeNode)
    (h : buildAutoMaxSplitTreeLevelAux previousData currentData targetVariable
      availableFactors (n + 1) pf ri pti = some cs) :
    10 ≤ (filterData previousData pf).length ∧
    10 ≤ (filterData currentData pf).length ∧
    ∃ best : BestSplit, ∃ pt : ℚ,
      findBestSplitByTotalImpact (filterData previousData pf)
        (filterData currentData pf) availableFactors = some best ∧
      cs = List.insertionSort impactOrder
        ((getDistinctValuesForFactor
            (filterData previousData pf ++ filterData currentData pf)
            best.factor).map (fun value =>
          childNodeV2 previousData currentData best.factor value pf
            (filterData previousData pf) (filterData currentData pf) ri pt
            (buildAutoMaxSplitTreeLevelAux previousData currentData
              targetVariable availableFactors n
              (objUpsert pf best.factor value) ri
              (some (calculateImpactDecomposition
                (filterData (filterData previousData pf)
                  [(best.factor, value)])
                (filterData (filterData currentData pf)
                  [(best.factor, value)])
                previousData currentData).totalImpact)))) := by
  simp only [buildAutoMaxSplitTreeLevelAux] at h
  split_ifs at h with hlen
  push_neg at hlen
  refine ⟨hlen.1, hlen.2, ?_⟩
  split at h
  · simp at h
  · rename_i best hsel
    rw [filterMap_eq_map_of_some _ _ _
      (fun v hv => if_pos (child_subsets_nonempty hv))] at h
    split_ifs at h with hpos
    exact ⟨best, _, hsel, (Option.some.inj h).symm⟩

/-! ## Structural properties of the auto-split builder -/

theorem HeightLE_node (n : ℕ) (t : TreeNode)
    (h : ∀ cs, t.children = some cs → ∀ c ∈ cs, HeightLE n c) :
    HeightLE (n + 1) t := by
  rcases t with ⟨f, v, filt, m, _ | cs⟩
  · exact HeightLE.leaf n f v filt m
  · exact HeightLE.branch n f v filt m cs (h cs rfl)

theorem buildAutoAux_heightLE (previousData currentData : List Row)
    (targetVariable : String) (availableFactors : Option (List String)) :
    ∀ (n : ℕ) (pf : List (String × String)) (ri : ℚ) (pti : Option ℚ)
      (cs : List TreeNode),
      buildAutoMaxSplitTreeLevelAux previousData currentData targetVariable
        availableFactors n pf ri pti = some cs →
      ∀ c ∈ cs, HeightLE n c := by
  intro n
  induction n with
  | zero =>
    intro pf ri pti cs h
    simp [buildAutoMaxSplitTreeLevelAux] at h
  | succ n ih =>
    intro pf ri pti cs h c hc
    obtain ⟨-, -, best, pt, -, hcs⟩ :=
      buildAutoAux_some_inv _ _ _ _ _ _ _ _ _ h
    subst hcs
    obtain ⟨value, hval, rfl⟩ :=
      List.mem_map.mp ((List.perm_insertionSort _ _).mem_iff.mp hc)
    refine HeightLE_node n _ (fun cs2 hrec c2 hc2 => ?_)
    rw [childNodeV2_children] at hrec
    exact ih _ _ _ _ hrec c2 hc2

theorem buildAutoAux_splitGuarded (previousData currentData : List Row)
    (targetVariable : String) (availableFactors : Option (List String)) :
    ∀ (n : ℕ) (pf : List (String × String)) (ri : ℚ) (pti : Option ℚ)
      (cs : List TreeNode),
      buildAutoMaxSplitTreeLevelAux previousData currentData targetVariable
        availableFactors n pf ri pti = some cs →
      ∀ c ∈ cs, SplitGuarded previousData currentData c := by
  intro n
  induction n with
  | zero =>
    intro pf ri pti cs h
    simp [buildAutoMaxSplitTreeLevelAux] at h
  | succ n ih =>
    intro pf ri pti cs h c hc
    obtain ⟨-, -, best, pt, -, hcs⟩ :=
      buildAutoAux_some_inv _ _ _ _ _ _ _ _ _ h
    subst hcs
    obtain ⟨value, hval, rfl⟩ :=
      List.mem_map.mp ((List.perm_insertionSort _ _).mem_iff.mp hc)
    rcases hrec : buildAutoMaxSplitTreeLevelAux previousData currentData
        targetVariable availableFactors n (objUpsert pf best.factor value) ri
        (some (calculateImpactDecomposition
          (filterData (filterData previousData pf) [(best.factor, value)])
          (filterData (filterData currentData pf) [(best.factor, value)])
          previousData currentData).totalImpact) with _ | cs2
    · exact SplitGuarded.leaf _ _ _ _
    · rcases n with _ | n
      · simp [buildAutoMaxSplitTreeLevelAux] at hrec
      · obtain ⟨hg1, hg2, -⟩ := buildAutoAux_some_inv _ _ _ _ _ _ _ _ _ hrec
        exact SplitGuarded.branch _ _ _ _ cs2 hg1 hg2
          (fun c2 hc2 => ih _ _ _ _ hrec c2 hc2)

theorem map_value_childNodeV2 (p c : List Row) (f : String)
    (pf : List (String × String)) (fp fc : List Row) (ri pt : ℚ)
    (ch : String → Option (List TreeNode)) (dv : List String) :
    (dv.map (fun value =>
      childNodeV2 p c f value pf fp fc ri pt (ch value))).map TreeNode.value =
      dv := by
  rw [List.map_map]
  exact List.map_id' dv

theorem buildAutoAux_childrenComplete (previousData currentData : List Row)
    (targetVariable : String) (availableFactors : Option (List String)) :
    ∀ (n : ℕ) (pf : List (String × String)) (ri : ℚ) (pti : Option ℚ)
      (cs : List TreeNode),
      buildAutoMaxSplitTreeLevelAux previousData currentData targetVariable
        availableFactors n pf ri pti = some cs →
      ∀ c ∈ cs, ChildrenComplete previousData currentData c := by
  intro n
  induction n with
  | zero =>
    intro pf ri pti cs h
    simp [buildAutoMaxSplitTreeLevelAux] at h
  | succ n ih =>
    intro pf ri pti cs h c hc
    obtain ⟨-, -, best, pt, -, hcs⟩ :=
      buildAutoAux_some_inv _ _ _ _ _ _ _ _ _ h
    subst hcs
    obtain ⟨value, hval, rfl⟩ :=
      List.mem_map.mp ((List.perm_insertionSort _ _).mem_iff.mp hc)
    rcases hrec : buildAutoMaxSplitTreeLevelAux previousData currentData
        targetVariable availableFactors n (objUpsert pf best.factor value) ri
        (some (calculateImpactDecomposition
          (filterData (filterData previousData pf) [(best.factor, value)])
          (filterData (filterData currentData pf) [(best.factor, value)])
          previousData currentData).totalImpact) with _ | cs2
    · exact ChildrenComplete.leaf _ _ _ _
    · rcases n with _ | n
      · simp [buildAutoMaxSplitTreeLevelAux] at hrec
      · obtain ⟨-, -, best2, pt2, -, hcs2⟩ :=
          buildAutoAux_some_inv _ _ _ _ _ _ _ _ _ hrec
        subst hcs2
        refine ChildrenComplete.branch _ _ _ _ _ best2.factor ?_ ?_
          (fun c2 hc2 => ih _ _ _ _ hrec c2 hc2)
        · refine ((List.perm_insertionSort _ _).map _).trans ?_
          rw [map_value_childNodeV2]
        · intro c2 hc2
          obtain ⟨v2, hv2, rfl⟩ :=
            List.mem_map.mp ((List.perm_insertionSort _ _).mem_iff.mp hc2)
          exact ⟨rfl, child_subsets_nonempty hv2⟩

theorem buildAutoAux_selectorLocal (previousData currentData : List Row)
    (targetVariable : String) (availableFactors : Option (List String)) :
    ∀ (n : ℕ) (pf : List (String × String)) (ri : ℚ) (pti : Option ℚ)
      (cs : List TreeNode),
      buildAutoMaxSplitTreeLevelAux previousData currentData targetVariable
        availableFactors n pf ri pti = some cs →
      ∀ c ∈ cs,
        SelectorUsesLocalData previousData currentData availableFactors c := by
  intro n
  induction n with
  | zero =>
    intro pf ri pti cs h
    simp [buildAutoMaxSplitTreeLevelAux] at h
  | succ n ih =>
    intro pf ri pti cs h c hc
    obtain ⟨-, -, best, pt, -, hcs⟩ :=
      buildAutoAux_some_inv _ _ _ _ _ _ _ _ _ h
    subst hcs
    obtain ⟨value, hval, rfl⟩ :=
      List.mem_map.mp ((List.perm_insertionSort _ _).mem_iff.mp hc)
    rcases hrec : buildAutoMaxSplitTreeLevelAux previousData currentData
        targetVariable availableFactors n (objUpsert pf best.factor value) ri
        (some (calculateImpactDecomposition
          (filterData (filterData previousData pf) [(best.factor, value)])
          (filterData (filterData currentData pf) [(best.factor, value)])
          previousData currentData).totalImpact) with _ | cs2
    · exact SelectorUsesLocalData.leaf _ _ _ _
    · rcases n with _ | n
      · simp [buildAutoMaxSplitTreeLevelAux] at hrec
      · obtain ⟨-, -, best2, pt2, hsel2, hcs2⟩ :=
          buildAutoAux_some_inv _ _ _ _ _ _ _ _ _ hrec
        subst hcs2
        refine SelectorUsesLocalData.branch _ _ _ _ _ best2 hsel2 ?_
          (fun c2 hc2 => ih _ _ _ _ hrec c2 hc2)
        intro c2 hc2
        obtain ⟨v2, hv2, rfl⟩ :=
          List.mem_map.mp ((List.perm_insertionSort _ _).mem_iff.mp hc2)
        exact ⟨rfl, rfl⟩

/-! ## Structural properties of the priority-mode builder -/

theorem buildPriorityLevel_some_inv (previousData currentData : List Row)
    (targetVariable : String) (currentFactor : String)
    (restFactors : List String) (pf : List (String × String)) (ri : ℚ)
    (pti : Option ℚ) (cs : List TreeNode)
    (h : buildUserPriorityTreeLevelV2 previousData currentData targetVariable
      (currentFactor :: restFactors) pf ri pti = some cs) :
    ∃ pt : ℚ, cs = List.insertionSort impactOrder
      ((getDistinctValuesForFactor
          (filterData previousData pf ++ filterData currentData pf)
          currentFactor).map (fun value =>
        childNodeV2 previousData currentData currentFactor value pf
          (filterData previousData pf) (filterData currentData pf) ri pt
          (buildUserPriorityTreeLevelV2 previousData currentData
            targetVariable restFactors (objUpsert pf currentFactor value) ri
            (some (calculateImpactDecomposition
              (filterData (filterData previousData pf)
                [(currentFactor, value)])
              (filterData (filterData currentData pf)
                [(currentFactor, value)])
              previousData currentData).totalImpact)))) := by
  simp only [buildUserPriorityTreeLevelV2] at h
  rw [filterMap_eq_map_of_some _ _ _
    (fun v hv => if_pos (child_subsets_nonempty hv))] at h
  split_ifs at h with hpos
  exact ⟨_, (Option.some.inj h).symm⟩

theorem buildPriorityLevel_childrenComplete (previousData currentData : List Row)
    (targetVariable : String) :
    ∀ (factors : List String) (pf : List (String × String)) (ri : ℚ)
      (pti : Option ℚ) (cs : List TreeNode),
      buildUserPriorityTreeLevelV2 previousData currentData targetVariable
        factors pf ri pti = some cs →
      ∀ c ∈ cs, ChildrenComplete previousData currentData c := by
  intro factors
  induction factors with
  | nil =>
    intro pf ri pti cs h
    simp [buildUserPriorityTreeLevelV2] at h
  | cons currentFactor restFactors ih =>
    intro pf ri pti cs h c hc
    obtain ⟨pt, hcs⟩ :=
      buildPriorityLevel_some_inv _ _ _ _ _ _ _ _ _ h
    subst hcs
    obtain ⟨value, hval, rfl⟩ :=
      List.mem_map.mp ((List.perm_insertionSort _ _).mem_iff.mp hc)
    rcases hrec : buildUserPriorityTreeLevelV2 previousData currentData
        targetVariable restFactors (objUpsert pf currentFactor value) ri
        (some (calculateImpactDecomposition
          (filterData (filterData previousData pf) [(currentFactor, value)])
          (filterData (filterData currentData pf) [(currentFactor, value)])
          previousData currentData).totalImpact) with _ | cs2
    · exact ChildrenComplete.leaf _ _ _ _
    · rcases restFactors with _ | ⟨nextFactor, moreFactors⟩
      · simp [buildUserPriorityTreeLevelV2] at hrec
      · obtain ⟨pt2, hcs2⟩ :=
          buildPriorityLevel_some_inv _ _ _ _ _ _ _ _ _ hrec
        subst hcs2
        refine ChildrenComplete.branch _ _ _ _ _ nextFactor ?_ ?_
          (fun c2 hc2 => ih _ _ _ _ hrec c2 hc2)
        · refine ((List.perm_insertionSort _ _).map _).trans ?_
          rw [map_value_childNodeV2]
        · intro c2 hc2
          obtain ⟨v2, hv2, rfl⟩ :=
            List.mem_map.mp ((List.perm_insertionSort _ _).mem_iff.mp hc2)
          exact ⟨rfl, child_subsets_nonempty hv2⟩

theorem rootNodeV2_children (p c : List Row) (ch : Option (List TreeNode)) :
    (rootNodeV2 p c ch).children = ch := rfl

/-! ## Claim C6: depth bound and minimum samples -/

/-- Claim C6 (confirmed): the auto-split tree's root has height at most 5
(no node more than 4 splitting levels below the root), and every node
with children has at least 10 records of each period in its
filter-restricted subsets. -/
theorem claim_C6_depth_and_min_samples (previousData currentData : List Row)
    (targetVariable : String) (availableFactors : Option (List String)) :
    ∃ root, buildAutoMaxSplitTreeV2 previousData currentData targetVariable 0
        [] availableFactors = some [root] ∧
      HeightLE 5 root ∧ SplitGuarded previousData currentData root := by
  refine ⟨rootNodeV2 previousData currentData
    (buildAutoMaxSplitTreeLevelAux previousData currentData targetVariable
      availableFactors 4 []
      (calculateWeightedROI currentData - calculateWeightedROI previousData)
      none), rfl, ?_, ?_⟩
  · refine HeightLE_node 4 _ (fun cs hcs c hc => ?_)
    rw [rootNodeV2_children] at hcs
    exact buildAutoAux_heightLE _ _ _ _ 4 _ _ _ _ hcs c hc
  · rcases hch : buildAutoMaxSplitTreeLevelAux previousData currentData
        targetVariable availableFactors 4 []
        (calculateWeightedROI currentData - calculateWeightedROI previousData)
        none with _ | cs
    · exact SplitGuarded.leaf _ _ _ _
    · obtain ⟨hg1, hg2, -⟩ := buildAutoAux_some_inv _ _ _ _ _ _ _ _ _ hch
      exact SplitGuarded.branch _ _ _ _ cs hg1 hg2
        (fun c2 hc2 => buildAutoAux_splitGuarded _ _ _ _ 4 _ _ _ _ hch c2 hc2)

/-! ## Claim C5 (amended): the factor selector's data scope -/

/-- Claim C5 (amended): at every node of the auto-split recursion the
chosen split factor is the one `findBestSplitByTotalImpact` selects on
the node's own filter-restricted subsets — that function passes those
subsets themselves to `calculateTotalImpactVariance`, which uses them as
the decomposition totals — while each constructed child's stored
`totalImpact` *is* decomposed against the full original portfolio. -/
theorem claim_C5_selector_scope (previousData currentData : List Row)
    (targetVariable : String) (availableFactors : Option (List String)) :
    ∃ root, buildAutoMaxSplitTreeV2 previousData currentData targetVariable 0
        [] availableFactors = some [root] ∧
      SelectorUsesLocalData previousData currentData availableFactors root := by
  refine ⟨rootNodeV2 previousData currentData
    (buildAutoMaxSplitTreeLevelAux previousData currentData targetVariable
      availableFactors 4 []
      (calculateWeightedROI currentData - calculateWeightedROI previousData)
      none), rfl, ?_⟩
  rcases hch : buildAutoMaxSplitTreeLevelAux previousData currentData
      targetVariable availableFactors 4 []
      (calculateWeightedROI currentData - calculateWeightedROI previousData)
      none with _ | cs
  · exact SelectorUsesLocalData.leaf _ _ _ _
  · obtain ⟨-, -, best, pt, hsel, hcs⟩ :=
      buildAutoAux_some_inv _ _ _ _ _ _ _ _ _ hch
    subst hcs
    refine SelectorUsesLocalData.branch _ _ _ _ _ best hsel ?_
      (fun c2 hc2 => buildAutoAux_selectorLocal _ _ _ _ 4 _ _ _ _ hch c2 hc2)
    intro c2 hc2
    obtain ⟨v2, hv2, rfl⟩ :=
      List.mem_map.mp ((List.perm_insertionSort _ _).mem_iff.mp hc2)
    exact ⟨rfl, rfl⟩

/-! ## Claim C7: child completeness -/

/-- Claim C7 (confirmed): in both modes, at every split each value of the
splitting factor present in the node's filter-restricted data of either
period appears as exactly one child (the children's values are a
permutation of the distinct-value list, which is duplicate-free), and
every child has at least one matching record in some period. -/
theorem claim_C7_child_completeness (previousData currentData : List Row)
    (factorOrder : List String) (targetVariable : String)
    (availableFactors : Option (List String)) :
    (∃ root, buildUserPriorityTreeV2 previousData currentData factorOrder
        targetVariable 0 [] = some [root] ∧
      ChildrenComplete previousData currentData root) ∧
    (∃ root, buildAutoMaxSplitTreeV2 previousData currentData targetVariable
        0 [] availableFactors = some [root] ∧
      ChildrenComplete previousData currentData root) := by
  constructor
  · refine ⟨rootNodeV2 previousData currentData
      (buildUserPriorityTreeLevelV2 previousData currentData targetVariable
        factorOrder []
        (calculateWeightedROI currentData - calculateWeightedROI previousData)
        none), rfl, ?_⟩
    rcases hch : buildUserPriorityTreeLevelV2 previousData currentData
        targetVariable factorOrder []
        (calculateWeightedROI currentData - calculateWeightedROI previousData)
        none with _ | cs
    · exact ChildrenComplete.leaf _ _ _ _
    · rcases factorOrder with _ | ⟨f0, rest⟩
      · simp [buildUserPriorityTreeLevelV2] at hch
      · obtain ⟨pt, hcs⟩ := buildPriorityLevel_some_inv _ _ _ _ _ _ _ _ _ hch
        subst hcs
        refine ChildrenComplete.branch _ _ _ _ _ f0 ?_ ?_
          (fun c2 hc2 =>
            buildPriorityLevel_childrenComplete _ _ _ _ _ _ _ _ hch c2 hc2)
        · refine ((List.perm_insertionSort _ _).map _).trans ?_
          rw [map_value_childNodeV2]
        · intro c2 hc2
          obtain ⟨v2, hv2, rfl⟩ :=
            List.mem_map.mp ((List.perm_insertionSort _ _).mem_iff.mp hc2)
          exact ⟨rfl, child_subsets_nonempty hv2⟩
  · refine ⟨rootNodeV2 previousData currentData
      (buildAutoMaxSplitTreeLevelAux previousData currentData targetVariable
        availableFactors 4 []
        (calculateWeightedROI currentData - calculateWeightedROI previousData)
        none), rfl, ?_⟩
    rcases hch : buildAutoMaxSplitTreeLevelAux previousData currentData
        targetVariable availableFactors 4 []
        (calculateWeightedROI currentData - calculateWeightedROI previousData)
        none with _ | cs
    · exact ChildrenComplete.leaf _ _ _ _
    · obtain ⟨-, -, best, pt, -, hcs⟩ :=
        buildAutoAux_some_inv _ _ _ _ _ _ _ _ _ hch
      subst hcs
      refine ChildrenComplete.branch _ _ _ _ _ best.factor ?_ ?_
        (fun c2 hc2 =>
          buildAutoAux_childrenComplete _ _ _ _ 4 _ _ _ _ hch c2 hc2)
      · refine ((List.perm_insertionSort _ _).map _).trans ?_
        rw [map_value_childNodeV2]
      · intro c2 hc2
        obtain ⟨v2, hv2, rfl⟩ :=
          List.mem_map.mp ((List.perm_insertionSort _ _).mem_iff.mp hc2)
        exact ⟨rfl, child_subsets_nonempty hv2⟩

/-! ## Concrete evaluations for the selector-scope counterexample -/

theorem varEx5_f :
    calculateTotalImpactVariance prevEx5 currEx5 "f" = 9 / 40000 := by
  have d1 : getDistinctValuesForFactor (prevEx5 ++ currEx5) "f" = ["X", "Y"] := by
    with_unfolding_all decide
  have s1 : prevEx5.filter (fun row => decide (row.get "f" = some "X")) =
      blockX := by
    with_unfolding_all decide
  have s2 : currEx5.filter (fun row => decide (row.get "f" = some "X")) =
      blockX := by
    with_unfolding_all decide
  have s3 : prevEx5.filter (fun row => decide (row.get "f" = some "Y")) =
      [rowYprev] := by
    with_unfolding_all decide
  have s4 : currEx5.filter (fun row => decide (row.get "f" = some "Y")) =
      [rowYcurr] := by
    with_unfolding_all decide
  have i1 : (calculateImpactDecomposition blockX blockX prevEx5
      currEx5).totalImpact = 3 / 100 := by
    with_unfolding_all decide
  have i2 : (calculateImpactDecomposition [rowYprev] [rowYcurr] prevEx5
      currEx5).totalImpact = 0 := by
    with_unfolding_all decide
  have lb : blockX.length = 10 := by decide
  simp only [calculateTotalImpactVariance, d1, List.filterMap_cons,
    List.filterMap_nil, s1, s2, s3, s4, i1, i2, lb]
  norm_num

theorem varEx5_g :
    calculateTotalImpactVariance prevEx5 currEx5 "g" = 1 / 40000 := by
  have d2 : getDistinctValuesForFactor (prevEx5 ++ currEx5) "g" = ["u", "v"] := by
    with_unfolding_all decide
  have s5 : prevEx5.filter (fun row => decide (row.get "g" = some "u")) =
      List.replicate 5 rowXu := by
    with_unfolding_all decide
  have s6 : currEx5.filter (fun row => decide (row.get "g" = some "u")) =
      List.replicate 5 rowXu := by
    with_unfolding_all decide
  have s7 : prevEx5.filter (fun row => decide (row.get "g" = some "v")) =
      List.replicate 5 rowXv := by
    with_unfolding_all decide
  have s8 : currEx5.filter (fun row => decide (row.get "g" = some "v")) =
      List.replicate 5 rowXv := by
    with_unfolding_all decide
  have i3 : (calculateImpactDecomposition (List.replicate 5 rowXu)
      (List.replicate 5 rowXu) prevEx5 currEx5).totalImpact = 1 / 100 := by
    with_unfolding_all decide
  have i4 : (calculateImpactDecomposition (List.replicate 5 rowXv)
      (List.replicate 5 rowXv) prevEx5 currEx5).totalImpact = 1 / 50 := by
    with_unfolding_all decide
  simp only [calculateTotalImpactVariance, d2, List.filterMap_cons,
    List.filterMap_nil, s5, s6, s7, s8, i3, i4]
  norm_num

theorem varGlobSpec_X_f :
    calculateTotalImpactVarianceGlobalSpec blockX blockX prevEx5 currEx5 "f" =
      0 := by
  have d3 : getDistinctValuesForFactor (blockX ++ blockX) "f" = ["X"] := by
    with_unfolding_all decide
  have s9 : blockX.filter (fun row => decide (row.get "f" = some "X")) =
      blockX := by
    with_unfolding_all decide
  have i1 : (calculateImpactDecomposition blockX blockX prevEx5
      currEx5).totalImpact = 3 / 100 := by
    with_unfolding_all decide
  have lb : blockX.length = 10 := by decide
  simp only [calculateTotalImpactVarianceGlobalSpec, d3, List.filterMap_cons,
    List.filterMap_nil, s9, i1, lb]
  norm_num

theorem varGlobSpec_X_g :
    calculateTotalImpactVarianceGlobalSpec blockX blockX prevEx5 currEx5 "g" =
      1 / 40000 := by
  have d4 : getDistinctValuesForFactor (blockX ++ blockX) "g" = ["u", "v"] := by
    with_unfolding_all decide
  have s10 : blockX.filter (fun row => decide (row.get "g" = some "u")) =
      List.replicate 5 rowXu := by
    with_unfolding_all decide
  have s11 : blockX.filter (fun row => decide (row.get "g" = some "v")) =
      List.replicate 5 rowXv := by
    with_unfolding_all decide
  have i3 : (calculateImpactDecomposition (List.replicate 5 rowXu)
      (List.replicate 5 rowXu) prevEx5 currEx5).totalImpact = 1 / 100 := by
    with_unfolding_all decide
  have i4 : (calculateImpactDecomposition (List.replicate 5 rowXv)
      (List.replicate 5 rowXv) prevEx5 currEx5).totalImpact = 1 / 50 := by
    with_unfolding_all decide
  simp only [calculateTotalImpactVarianceGlobalSpec, d4, List.filterMap_cons,
    List.filterMap_nil, s10, s11, i3, i4]
  norm_num

/-- Claim C5 counterexample: over `prevEx5`/`currEx5` with candidates
`["f", "g"]`, the root selector picks `f` and the `f = X` child holds 10
records of each period, so the recursion reaches that node and invokes
the selector on its filtered subsets; there the code's selector — whose
variances use the node's own filtered subsets as decomposition totals —
returns `none` (the subsets are identical across periods, so every
local variance is 0), while the spec-mandated selector using the full
original portfolio as the distribution-share denominator finds variance
1/40000 for `g` and returns it.  The claim that the selector uses the
global totals at every node is therefore false on this input. -/
theorem claim_C5_counterexample :
    findBestSplitByTotalImpact prevEx5 currEx5 (some ["f", "g"]) =
      some ⟨"f", 9 / 40000⟩ ∧
    (filterData prevEx5 [("f", "X")]).length = 10 ∧
    (filterData currEx5 [("f", "X")]).length = 10 ∧
    findBestSplitByTotalImpact (filterData prevEx5 [("f", "X")])
      (filterData currEx5 [("f", "X")]) (some ["f", "g"]) = none ∧
    findBestSplitByTotalImpactGlobalSpec (filterData prevEx5 [("f", "X")])
      (filterData currEx5 [("f", "X")]) prevEx5 currEx5 (some ["f", "g"]) =
      some ⟨"g", 1 / 40000⟩ := by
  have hfX : filterData prevEx5 [("f", "X")] = blockX := by
    with_unfolding_all decide
  have hcX : filterData currEx5 [("f", "X")] = blockX := by
    with_unfolding_all decide
  refine ⟨?_, ?_, ?_, ?_, ?_⟩
  · simp only [findBestSplitByTotalImpact, List.foldl_cons, List.foldl_nil,
      varEx5_f, varEx5_g]
    norm_num
  · rw [hfX]; decide
  · rw [hcX]; decide
  · rw [hfX, hcX]
    with_unfolding_all decide
  · rw [hfX, hcX]
    simp only [findBestSplitByTotalImpactGlobalSpec, List.foldl_cons,
      List.foldl_nil, varGlobSpec_X_f, varGlobSpec_X_g]
    norm_num

/-! ## Claim C9: feature-importance normalisation -/

theorem objUpsert_of_fresh {β : Type} (m : List (String × β)) (k : String)
    (v : β) (h : ∀ p ∈ m, p.1 ≠ k) : objUpsert m k v = m ++ [(k, v)] := by
  unfold objUpsert
  have hcond : ¬ (m.any (fun p => decide (p.1 = k)) = true) := by
    simp only [List.any_eq_true, decide_eq_true_eq]
    push_neg
    exact h
  rw [if_neg hcond]

theorem list_sum_div (l : List ℚ) (b : ℚ) :
    (l.map (fun x => x / b)).sum = l.sum / b := by
  induction l with
  | nil => simp
  | cons x xs ih => simp [ih, add_div]

theorem importance_foldl (previousData currentData : List Row) :
    ∀ (factors : List String) (acc : List (String × ℚ)) (t : ℚ),
      factors.Nodup →
      (∀ f ∈ factors, ∀ p ∈ acc, p.1 ≠ f) →
      factors.foldl (fun acc2 factor =>
        let variance := max 0 (calculateTotalImpactVariance previousData
          currentData factor)
        (objUpsert acc2.1 factor variance, acc2.2 + variance))
        (acc, t) =
      (acc ++ factors.map (fun f => (f, max 0 (calculateTotalImpactVariance
        previousData currentData f))),
        t + (factors.map (fun f => max 0 (calculateTotalImpactVariance
          previousData currentData f))).sum) := by
  intro factors
  induction factors with
  | nil =>
    intro acc t _ _
    simp
  | cons f rest ih =>
    intro acc t hnd hfresh
    simp only [List.foldl_cons]
    rw [objUpsert_of_fresh _ _ _ (fun p hp => hfresh f (by simp) p hp)]
    have hfresh2 : ∀ g ∈ rest, ∀ p ∈ acc ++
        [(f, max 0 (calculateTotalImpactVariance previousData currentData f))],
        p.1 ≠ g := by
      intro g hg p hp
      rcases List.mem_append.mp hp with hpa | hpf
      · exact hfresh g (by simp [hg]) p hpa
      · simp only [List.mem_singleton] at hpf
        subst hpf
        exact fun he => (List.nodup_cons.mp hnd).1
          (by rw [show f = g from he]; exact hg)
    rw [ih _ _ (List.nodup_cons.mp hnd).2 hfresh2]
    simp [add_assoc]

/-- Claim C9 (amended): for duplicate-free candidate lists the mapping has
each candidate's weight equal to its variance divided by the total
variance whenever some candidate's variance is nonzero (so weights are
proportional to variances, non-negative, and sum to 1), and is the
uniform distribution `1/n` when every candidate's variance is zero. -/
theorem claim_C9_feature_importance (previousData currentData : List Row)
    (factors : List String) (hnd : factors.Nodup) :
    ((∃ f ∈ factors,
        calculateTotalImpactVariance previousData currentData f ≠ 0) →
      calculateTotalImpactFeatureImportance previousData currentData
          (some factors) =
        factors.map (fun f => (f,
          calculateTotalImpactVariance previousData currentData f /
            (factors.map (fun g =>
              calculateTotalImpactVariance previousData currentData g)).sum)) ∧
      ((calculateTotalImpactFeatureImportance previousData currentData
          (some factors)).map Prod.snd).sum = 1 ∧
      ∀ p ∈ calculateTotalImpactFeatureImportance previousData currentData
          (some factors), 0 ≤ p.2) ∧
    ((∀ f ∈ factors,
        calculateTotalImpactVariance previousData currentData f = 0) →
      factors ≠ [] →
      calculateTotalImpactFeatureImportance previousData currentData
          (some factors) =
        factors.map (fun f => (f, 1 / (factors.length : ℚ)))) := by
  have hmax : ∀ f : String,
      max 0 (calculateTotalImpactVariance previousData currentData f) =
        calculateTotalImpactVariance previousData currentData f :=
    fun f => max_eq_right (calculateTotalImpactVariance_nonneg _ _ _)
  have hfold := importance_foldl previousData currentData factors [] 0 hnd
    (by simp)
  constructor
  · intro hex
    obtain ⟨f, hf, hne⟩ := hex
    have hTpos : 0 < (factors.map (fun g =>
        calculateTotalImpactVariance previousData currentData g)).sum := by
      have hle : calculateTotalImpactVariance previousData currentData f ≤
          (factors.map (fun g =>
            calculateTotalImpactVariance previousData currentData g)).sum :=
        List.single_le_sum
          (fun x hx => by
            obtain ⟨y, -, rfl⟩ := List.mem_map.mp hx
            exact calculateTotalImpactVariance_nonneg _ _ _) _
          (List.mem_map_of_mem _ hf)
      exact lt_of_lt_of_le (lt_of_le_of_ne
        (calculateTotalImpactVariance_nonneg _ _ _) (Ne.symm hne)) hle
    have hmain : calculateTotalImpactFeatureImportance previousData
        currentData (some factors) =
        factors.map (fun f => (f,
          calculateTotalImpactVariance previousData currentData f /
            (factors.map (fun g =>
              calculateTotalImpactVariance previousData currentData g)).sum)) := by
      simp only [calculateTotalImpactFeatureImportance]
      rw [hfold]
      simp only [hmax, List.nil_append, zero_add]
      rw [if_pos hTpos, List.map_map]
      rfl
    refine ⟨hmain, ?_, ?_⟩
    · rw [hmain, List.map_map]
      have : (Prod.snd ∘ fun f => (f,
          calculateTotalImpactVariance previousData currentData f /
            (factors.map (fun g =>
              calculateTotalImpactVariance previousData currentData g)).sum)) =
          fun f => calculateTotalImpactVariance previousData currentData f /
            (factors.map (fun g =>
              calculateTotalImpactVariance previousData currentData g)).sum :=
        rfl
      rw [this, show (fun f => calculateTotalImpactVariance previousData
          currentData f / (factors.map (fun g =>
            calculateTotalImpactVariance previousData currentData g)).sum) =
          ((fun x => x / (factors.map (fun g =>
            calculateTotalImpactVariance previousData currentData g)).sum) ∘
            (fun f => calculateTotalImpactVariance previousData currentData f))
          from rfl, ← List.map_map, list_sum_div]
      exact div_self (ne_of_gt hTpos)
    · intro p hp
      rw [hmain] at hp
      obtain ⟨y, -, rfl⟩ := List.mem_map.mp hp
      exact div_nonneg (calculateTotalImpactVariance_nonneg _ _ _)
        (le_of_lt hTpos)
  · intro hall _
    have hT0 : (factors.map (fun g =>
        calculateTotalImpactVariance previousData currentData g)).sum = 0 :=
      List.sum_eq_zero (fun x hx => by
        obtain ⟨y, hy, rfl⟩ := List.mem_map.mp hx
        exact hall y hy)
    simp only [calculateTotalImpactFeatureImportance]
    rw [hfold]
    simp only [hmax, List.nil_append, zero_add]
    rw [if_neg (by rw [hT0]; exact lt_irrefl 0), List.map_map]
    rfl

/-- Witness for C9: the single nonzero-variance candidate `g` gets
weight 1 (both branches of the amended claim instantiated on concrete
data; the factor `h` never occurs in the rows, so its variance is 0 and
the uniform branch applies). -/
theorem claim_C9_feature_importance_witness :
    (calculateTotalImpactFeatureImportance prevS currS (some ["g"]) =
      (["g"] : List String).map (fun f => (f,
        calculateTotalImpactVariance prevS currS f /
          ((["g"] : List String).map (fun g =>
            calculateTotalImpactVariance prevS currS g)).sum)) ∧
      ((calculateTotalImpactFeatureImportance prevS currS
        (some ["g"])).map Prod.snd).sum = 1 ∧
      ∀ p ∈ calculateTotalImpactFeatureImportance prevS currS (some ["g"]),
        0 ≤ p.2) ∧
    calculateTotalImpactFeatureImportance prevS currS (some ["h"]) =
      (["h"] : List String).map (fun f =>
        (f, 1 / (((["h"] : List String).length : ℚ)))) :=
  ⟨(claim_C9_feature_importance prevS currS ["g"] (by simp)).1
      ⟨"g", by simp, by with_unfolding_all decide⟩,
    (claim_C9_feature_importance prevS currS ["h"] (by simp)).2
      (by intro f hf; simp only [List.mem_singleton] at hf; subst hf
          with_unfolding_all decide)
      (by simp)⟩

/-- Claim C9 counterexample: with the duplicated candidate list
`["g", "g"]` — whose factor `g` has nonzero variance — the JS object
collapses the two entries to one key while the normalising total counts
both, so the returned mapping's weights sum to 1/2, not 1. -/
theorem claim_C9_counterexample :
    calculateTotalImpactVariance prevS currS "g" ≠ 0 ∧
    ((calculateTotalImpactFeatureImportance prevS currS
      (some ["g", "g"])).map Prod.snd).sum ≠ 1 := by
  constructor
  · with_unfolding_all decide
  · with_unfolding_all decide

/-! ## Claim C10: null-factor records and the partition gap -/

/-- Claim C10 (confirmed): a record whose value for the splitting factor is
missing contributes no enumerated child value and matches no child's
filter (any filter containing a `(factor, value)` entry), while a
value's presence among the enumerated children implies a matching
record; concretely, in the priority-mode tree over `dataC10` (one
`tier = A` row, one row without `tier`) the children's previous-record
counts sum to 1 while the root holds 2 — the children do not partition
the parent. -/
theorem claim_C10_partition_gap :
    (∀ (data : List Row) (filt : List (String × String))
      (factor value : String) (r : Row), r ∈ data → r.get factor = none →
      (factor, value) ∈ filt → r ∉ filterData data filt) ∧
    (∀ (data : List Row) (factor value : String),
      value ∈ getDistinctValuesForFactor data factor →
        ∃ r ∈ data, r.get factor = some value) ∧
    rootChildrenPrevCounts
      (buildUserPriorityTreeV2 dataC10 dataC10 ["tier"] "roi" 0 []) =
        some (1, 2) ∧
    (1 : ℕ) < 2 := by
  refine ⟨?_, ?_, ?_, by norm_num⟩
  · intro data filt factor value r _ hnone hkv hmem
    obtain ⟨-, hall⟩ := mem_filterData.mp hmem
    have := hall (factor, value) hkv
    rw [hnone] at this
    exact Option.noConfusion this
  · intro data factor value hv
    exact mem_getDistinctValuesForFactor.mp hv
  · with_unfolding_all decide

/-- Witness for C10: the row without a `tier` value is excluded from the
`tier = A` child's data, and value `A` does have a matching record. -/
theorem claim_C10_partition_gap_witness :
    rowNoTier ∉ filterData dataC10 [("tier", "A")] ∧
    ∃ r ∈ dataC10, r.get "tier" = some "A" :=
  ⟨claim_C10_partition_gap.1 dataC10 [("tier", "A")] "tier" "A" rowNoTier
      (by with_unfolding_all decide) (by with_unfolding_all decide) (by simp),
    claim_C10_partition_gap.2.1 dataC10 "tier" "A"
      (by with_unfolding_all decide)⟩
